import Mathlib

/-!
Shallow embedding of the move2kube plugin execution substrate:
the Executable external transformer (Init, DirectoryDetect, Transform,
executeDetect) and the container-engine cache (GetContainerEngine,
IsDisabled).  Go maps and slices that can be nil are modelled as Option;
a Go panic is modelled as none in an Option-valued result; external
library calls (JSON text parsing, filepath.Rel, filepath.Join, Env.Exec)
are parameters supplied to the embedded functions.
-/

namespace Move2Kube

/-- JSON values, the result of parsing a JSON text.  Numbers are modelled
as integers; no claim depends on numeric representation. -/
inductive JValue where
  | null : JValue
  | bool : Bool → JValue
  | num : Int → JValue
  | str : String → JValue
  | arr : List JValue → JValue
  | obj : List (String × JValue) → JValue

/-- Go slice of strings: none models a nil slice, some models a non-nil
slice (possibly empty). -/
abbrev GoStrSlice := Option (List String)

/-- Go map from path role to string slice: none models a nil map. -/
abbrev PathsMap := Option (List (String × GoStrSlice))

/-- transformertypes.Artifact, restricted to the fields the embedded code
reads: Paths and Configs.  Config values are modelled as JSON values. -/
structure Artifact where
  paths : PathsMap
  configs : Option (List (String × JValue))

/-- transformertypes.PathMapping, restricted to the fields the embedded
code writes: Type, SrcPath, DestPath, TemplateConfig. -/
structure PathMapping where
  type : String
  srcPath : String
  destPath : String
  templateConfig : JValue

/-- The detect result shape: mapping from service name to list of
artifacts, modelled as an association list. -/
abbrev Services := List (String × List Artifact)

/-- TemplateConfigType represents the template config type (source
part_000 line 111). -/
def TemplateConfigType : String := "TemplateConfig"

/-- Modelled from the spec: the serviceDir path role
(artifacts.ServiceDirPathType, declared outside src); the spec names the
role serviceDir.  Only its identity matters. -/
def ServiceDirPathType : String := "serviceDir"

/-- Modelled from the spec: the template path mapping type
(transformertypes.TemplatePathMappingType, declared outside src). -/
def TemplatePathMappingType : String := "template"

/-- Modelled from the spec: the source path mapping type
(transformertypes.SourcePathMappingType, declared outside src). -/
def SourcePathMappingType : String := "source"

/-- Modelled from the spec: the default output source location
(common.DefaultSourceDir, declared outside src).  Only its identity
matters. -/
def DefaultSourceDir : String := "source"

/-- Errors returned by Environment.Exec: the recoverable
EnvironmentNotActiveError is distinguished from every other error,
matching errors.Is against environment.EnvironmentNotActiveError. -/
inductive ExecErr where
  | envNotActive : ExecErr
  | other : String → ExecErr
deriving DecidableEq

/-- The four results of Environment.Exec. -/
structure ExecOutcome where
  stdout : String
  stderr : String
  exitcode : Int
  err : Option ExecErr

/-- External Go library functions used by the embedded code: the JSON
text parser (encoding/json's scanner), filepath.Rel (none models a
returned error) and filepath.Join. -/
structure GoLib where
  jparse : String → Option JValue
  rel : String → String → Option String
  join : String → String → String

/-- The slice of the Environment the embedded code reads:
GetEnvironmentSource(), Context, RelTemplatesDir and Exec. -/
structure EnvModel where
  source : String
  context : String
  relTemplatesDir : String
  exec : List String → ExecOutcome

/-- environmenttypes.Command: an ordered sequence of string tokens. -/
abbrev Command := List String

/-- ExecutableYamlConfig: the declarative plugin configuration.  A nil
command is modelled as none; of the Container descriptor only the Image
field is read by the embedded code. -/
structure ExecutableYamlConfig where
  enableQA : Bool
  platforms : List String
  directoryDetectCMD : Option Command
  transformCMD : Option Command
  containerImage : String

/-- Modelled from the spec: json.Unmarshal of a JSON value into
[]string.  null yields a nil slice; an array of strings yields that
slice; anything else is a type error. -/
def decodeStrList : JValue → Option GoStrSlice
  | JValue.null => some none
  | JValue.arr xs =>
    (xs.mapM (fun v => match v with
      | JValue.str s => some s
      | _ => none)).map some
  | _ => none

/-- Modelled from the spec: json.Unmarshal of a JSON value into an
Artifact, following the spec's Artifact JSON shape (paths: role to list
of paths, configs: config type to arbitrary value).  Unmarshalling is
modelled as atomic: on error nothing is produced. -/
def decodeArtifact : JValue → Option Artifact
  | JValue.null => some ⟨none, none⟩
  | JValue.obj fields => do
    let paths ← match fields.lookup "paths" with
      | none => some none
      | some JValue.null => some none
      | some (JValue.obj pf) =>
        (pf.mapM (fun p => (decodeStrList p.2).map (fun v => (p.1, v)))).map some
      | some _ => none
    let configs ← match fields.lookup "configs" with
      | none => some none
      | some JValue.null => some none
      | some (JValue.obj cf) => some (some cf)
      | some _ => none
    some ⟨paths, configs⟩
  | _ => none

/-- Modelled from the spec: json.Unmarshal of a JSON value into
[]Artifact. -/
def decodeArtifactList : JValue → Option (List Artifact)
  | JValue.null => some []
  | JValue.arr xs => xs.mapM decodeArtifact
  | _ => none

/-- Modelled from the spec: json.Unmarshal of a JSON value into the full
detect shape mapping(serviceName to list of Artifact). -/
def decodeServices : JValue → Option Services
  | JValue.null => some []
  | JValue.obj fields =>
    fields.mapM (fun p => (decodeArtifactList p.2).map (fun v => (p.1, v)))
  | _ => none

/-- Modelled from the spec: json.Unmarshal of a JSON value into the
loose shape map from string to arbitrary value; succeeds exactly on JSON
objects (null leaves the pre-made empty map unchanged). -/
def decodeLooseObj : JValue → Option (List (String × JValue))
  | JValue.null => some []
  | JValue.obj fields => some fields
  | _ => none

/-- Modelled from the spec: json.Unmarshal of a JSON value into a
PathMapping, following the spec's PathMapping JSON shape.  A missing or
null field keeps the zero value. -/
def decodePathMapping : JValue → Option PathMapping
  | JValue.null => some ⟨"", "", "", JValue.null⟩
  | JValue.obj fields => do
    let ty ← match fields.lookup "type" with
      | none => some ""
      | some JValue.null => some ""
      | some (JValue.str s) => some s
      | some _ => none
    let sp ← match fields.lookup "srcPath" with
      | none => some ""
      | some JValue.null => some ""
      | some (JValue.str s) => some s
      | some _ => none
    let dp ← match fields.lookup "destPath" with
      | none => some ""
      | some JValue.null => some ""
      | some (JValue.str s) => some s
      | some _ => none
    let tc := (fields.lookup "templateConfig").getD JValue.null
    some ⟨ty, sp, dp, tc⟩
  | _ => none

/-- transformertypes.TransformOutput: the transform wire contract. -/
structure TransformOutput where
  pathMappings : List PathMapping
  createdArtifacts : List Artifact

/-- Modelled from the spec: json.Unmarshal of a JSON value into a
TransformOutput.  Unmarshalling is modelled as atomic: on error nothing
is produced and the destination keeps its zero value. -/
def decodeTransformOutput : JValue → Option TransformOutput
  | JValue.null => some ⟨[], []⟩
  | JValue.obj fields => do
    let pms ← match fields.lookup "pathMappings" with
      | none => some []
      | some JValue.null => some []
      | some (JValue.arr xs) => xs.mapM decodePathMapping
      | some _ => none
    let cas ← match fields.lookup "createdArtifacts" with
      | none => some []
      | some JValue.null => some []
      | some (JValue.arr xs) => xs.mapM decodeArtifact
      | some _ => none
    some ⟨pms, cas⟩
  | _ => none

/-- ASCII whitespace, as trimmed by strings.TrimSpace; the claims do not
depend on the exact whitespace set. -/
def isSpaceChar (c : Char) : Bool :=
  c == ' ' || c == '\t' || c == '\n' || c == '\r'

/-- strings.TrimSpace: drop leading and trailing whitespace. -/
def goTrimSpace (s : String) : String :=
  String.mk (((s.toList.dropWhile isSpaceChar).reverse.dropWhile isSpaceChar).reverse)

/-- Go map lookup a.Paths[k]: a nil map or a missing key yields a nil
slice. -/
def pathsLookup (m : PathsMap) (k : String) : GoStrSlice :=
  match m with
  | none => none
  | some l =>
    match l.lookup k with
    | none => none
    | some v => v

/-- Index 0 of a Go string slice, a.Paths[k][0]: indexing a nil or empty
slice is out of range; none models the resulting panic. -/
def sliceHead (s : GoStrSlice) : Option String :=
  (s.getD []).head?

/-- len of a Go map (part_000 line 97): a nil map has length 0. -/
def pathsLen (m : PathsMap) : Nat := (m.getD []).length

/-- Executable.executeDetect (part_000 lines 170-207): run the detect
command with dir appended; on exec error return (nil, err); on non-zero
exit return (nil, nil); on success trim stdout and try the full detect
shape first, falling back to wrapping the loose JSON object into a
single unnamed-service artifact whose path is dir and whose
TemplateConfig carries the object. -/
def executeDetect (lib : GoLib) (env : EnvModel) (cmd : Command) (dir : String) :
    Option Services × Option ExecErr :=
  let r := env.exec (cmd ++ [dir])
  match r.err with
  | some e => (none, some e)
  | none =>
    if r.exitcode ≠ 0 then (none, none)
    else
      let stdout := goTrimSpace r.stdout
      match (lib.jparse stdout).bind decodeServices with
      | some output => (some output, none)
      | none =>
        let config : JValue :=
          if stdout = "" then JValue.null
          else
            match (lib.jparse stdout).bind decodeLooseObj with
            | some fields => JValue.obj fields
            | none => JValue.obj []
        (some [("", [{ paths := some [(ServiceDirPathType, some [dir])],
                       configs := some [(TemplateConfigType, config)] }])], none)

/-- The loop body of DirectoryDetect's post-processing (part_000 lines
96-103): an artifact with an empty path mapping gets serviceDir
defaulted to the one-element list holding dir. -/
def defaultPathsArtifact (dir : String) (nst : Artifact) : Artifact :=
  if pathsLen nst.paths = 0 then
    { nst with paths := some [(ServiceDirPathType, some [dir])] }
  else nst

/-- Executable.DirectoryDetect (part_000 lines 87-107): nil detect
command returns (nil, nil); a detect error is propagated together with
whatever services were returned; otherwise every artifact of every
service with an empty path mapping gets its path defaulted to dir. -/
def DirectoryDetect (lib : GoLib) (env : EnvModel) (cfg : ExecutableYamlConfig)
    (dir : String) : Option Services × Option ExecErr :=
  match cfg.directoryDetectCMD with
  | none => (none, none)
  | some cmd =>
    match executeDetect lib env cmd dir with
    | (services, some e) => (services, some e)
    | (services, none) =>
      (services.map (fun svcs =>
        svcs.map (fun p => (p.1, p.2.map (defaultPathsArtifact dir)))), none)

/-- The config read in the template fallback branch (part_000 lines
125-128): nil Configs yields a nil interface value, otherwise the
TemplateConfig entry of the Configs map (nil when absent). -/
def templateConfigOf (a : Artifact) : JValue :=
  match a.configs with
  | none => JValue.null
  | some cfgs => (cfgs.lookup TemplateConfigType).getD JValue.null

/-- The unguarded path access of the template fallback branch (part_000
lines 120-122): a.Paths[ServiceDirPathType][0]; none models the Go
panic when the serviceDir slice is nil or empty. -/
def templateBranchPath (a : Artifact) : Option String :=
  sliceHead (pathsLookup a.paths ServiceDirPathType)

/-- The guarded path computation of the transform-command branch
(part_000 lines 140-143): path stays "" unless the Paths map and the
serviceDir slice are both non-nil, in which case element 0 is taken;
none models the Go panic when the slice is non-nil but empty. -/
def transformBranchPath (a : Artifact) : Option String :=
  match a.paths with
  | none => some ""
  | some _ =>
    match pathsLookup a.paths ServiceDirPathType with
    | none => some ""
    | some xs => xs.head?

/-- The accumulated outputs of Transform's loop. -/
abbrev TransformAcc := List PathMapping × List Artifact

/-- One iteration of Transform's loop over newArtifacts (part_000 lines
118-166).  No transform command: compute the relative source path (skip
the artifact when filepath.Rel errors) and append a template mapping
followed by a source mapping.  Transform command: run it with the
artifact's path appended; exec errors (environment-not-active or other)
and non-zero exits skip the artifact; otherwise the trimmed stdout is
unmarshalled as TransformOutput (zero value on failure) and its parts
are appended.  none models a Go panic. -/
def transformStep (lib : GoLib) (env : EnvModel) (cfg : ExecutableYamlConfig)
    (acc : TransformAcc) (a : Artifact) : Option TransformAcc :=
  match cfg.transformCMD with
  | none =>
    match templateBranchPath a with
    | none => none
    | some p0 =>
      match lib.rel env.source p0 with
      | none => some acc
      | some relSrcPath =>
        some (acc.1 ++
          [⟨TemplatePathMappingType, lib.join env.context env.relTemplatesDir,
            lib.join DefaultSourceDir relSrcPath, templateConfigOf a⟩,
           ⟨SourcePathMappingType, "", DefaultSourceDir, JValue.null⟩],
          acc.2)
  | some cmd =>
    match transformBranchPath a with
    | none => none
    | some path =>
      let r := env.exec (cmd ++ [path])
      match r.err with
      | some _ => some acc
      | none =>
        if r.exitcode ≠ 0 then some acc
        else
          let output := ((lib.jparse (goTrimSpace r.stdout)).bind decodeTransformOutput).getD ⟨[], []⟩
          some (acc.1 ++ output.pathMappings, acc.2 ++ output.createdArtifacts)

/-- Executable.Transform (part_000 lines 115-167): fold the per-artifact
step over newArtifacts starting from empty accumulators and always
return a nil error; none models a Go panic inside the loop.  The
alreadySeenArtifacts argument is ignored, as in the source. -/
def Transform (lib : GoLib) (env : EnvModel) (cfg : ExecutableYamlConfig)
    (newArtifacts alreadySeenArtifacts : List Artifact) :
    Option (List PathMapping × List Artifact × Option ExecErr) :=
  (newArtifacts.foldlM (transformStep lib env cfg) ([], [])).map
    (fun acc => (acc.1, acc.2, none))

/-- The external collaborators of Executable.Init: the transformer name,
runtime.GOOS, the outcome of common.GetObjFromInterface on the declared
config, the outcome of questionreceivers.StartGRPCReceiver (modelled
from the spec: on failure no address is produced), and
environment.NewEnvironment as a function of the QA address passed. -/
structure InitDeps where
  tcName : String
  goos : String
  parseConfig : Except String ExecutableYamlConfig
  qaStart : Except String String
  newEnvironment : Option String → Except String EnvModel

/-- The state established by a successful Init: the parsed config, the
QA receiver address handed to NewEnvironment, and the environment. -/
structure InitState where
  config : ExecutableYamlConfig
  qaAddr : Option String
  env : EnvModel

/-- Executable.Init (part_000 lines 54-79): config parse failure is
returned; a QA receiver start failure when enableQA is set is only
logged and leaves the address nil; when the host OS is not in platforms
and no container image is declared an error is returned; otherwise the
environment is created (its error returned) and nil is returned. -/
def Init (d : InitDeps) : Except String InitState :=
  match d.parseConfig with
  | Except.error e => Except.error e
  | Except.ok cfg =>
    let qaAddr : Option String :=
      if cfg.enableQA then
        match d.qaStart with
        | Except.ok addr => some addr
        | Except.error _ => none
      else none
    if !(cfg.platforms.contains d.goos) && (cfg.containerImage == "") then
      Except.error ("platform " ++ d.goos ++ " not supported by transformer " ++ d.tcName)
    else
      match d.newEnvironment qaAddr with
      | Except.error e => Except.error e
      | Except.ok env => Except.ok ⟨cfg, qaAddr, env⟩

/-- A container engine value; its identity is all the embedded code
depends on. -/
structure Engine where
  id : String
deriving DecidableEq

/-- The container package globals (container.go lines 30-34). -/
structure ContainerState where
  inited : Bool
  disabled : Bool
  workingEngine : Option Engine
deriving DecidableEq

/-- The zero value of the container package globals. -/
def initialContainerState : ContainerState := ⟨false, false, none⟩

/-- initContainerEngine (container.go lines 55-65), as a function of the
outcome of newDockerEngine (declared outside src): returns the new
workingEngine value and the error. -/
def initContainerEngine (newDockerEngine : Except String (Option Engine)) :
    Option Engine × Option String :=
  match newDockerEngine with
  | Except.error e =>
    (none, some ("failed to use docker as the container engine. Error: " ++ e))
  | Except.ok none => (none, some "no working container runtime available")
  | Except.ok (some eng) => (some eng, none)

/-- GetContainerEngine (container.go lines 68-79) as a state transition
on the package globals, as a function of the operator consent answer
(qaengine.FetchBoolAnswer, queried only when not yet inited) and of the
newDockerEngine outcome.  The overall none models the logrus.Fatalf
process halt when engine initialization fails. -/
def GetContainerEngine (consentAnswer : Bool)
    (newDockerEngine : Except String (Option Engine)) (s : ContainerState) :
    Option (Option Engine × ContainerState) :=
  if s.inited then some (s.workingEngine, s)
  else
    let disabled := !consentAnswer
    if !disabled then
      match initContainerEngine newDockerEngine with
      | (_, some _) => none
      | (we, none) => some (we, ⟨true, disabled, we⟩)
    else
      some (s.workingEngine, ⟨true, disabled, s.workingEngine⟩)

/-- IsDisabled (container.go lines 82-84). -/
def IsDisabled (s : ContainerState) : Bool := s.disabled

/-- The two path mappings the template fallback branch appends for one
artifact (the template mapping then the source mapping, part_000 lines
129-138), or the empty list when filepath.Rel fails and the artifact is
skipped (lines 121-124). -/
def templateFallbackMappings (lib : GoLib) (env : EnvModel) (a : Artifact) :
    List PathMapping :=
  match templateBranchPath a with
  | none => []
  | some p0 =>
    match lib.rel env.source p0 with
    | none => []
    | some relSrcPath =>
      [⟨TemplatePathMappingType, lib.join env.context env.relTemplatesDir,
        lib.join DefaultSourceDir relSrcPath, templateConfigOf a⟩,
       ⟨SourcePathMappingType, "", DefaultSourceDir, JValue.null⟩]

/-- A concrete JSON object that is not a valid detect services map. -/
def jvO : JValue := JValue.obj [("k", JValue.num 7)]

/-- A concrete external-library instance: the parser recognises the one
text OBJ, relative paths are recognised under the base followed by
/svc, and join inserts a slash. -/
def libFix : GoLib :=
  { jparse := fun s => if s = "OBJ" then some jvO else none,
    rel := fun base p => if p = base ++ "/svc" then some "svc" else none,
    join := fun a b => a ++ "/" ++ b }

/-- A concrete environment whose exec succeeds printing OBJ. -/
def envDetectFix : EnvModel :=
  { source := "/src", context := "/ctx", relTemplatesDir := "templates",
    exec := fun _ => ⟨"OBJ", "", 0, none⟩ }

/-- A concrete environment whose exec fails with a non-recoverable
error. -/
def envExecErrFix : EnvModel :=
  { source := "/src", context := "/ctx", relTemplatesDir := "templates",
    exec := fun _ => ⟨"", "", 1, some (ExecErr.other "boom")⟩ }

/-- A concrete environment whose exec returns exit code 1 with no
error. -/
def envBadExitFix : EnvModel :=
  { source := "/src", context := "/ctx", relTemplatesDir := "templates",
    exec := fun _ => ⟨"", "", 1, none⟩ }

/-- A concrete environment whose exec succeeds printing unparseable
output. -/
def envParseFailFix : EnvModel :=
  { source := "/src", context := "/ctx", relTemplatesDir := "templates",
    exec := fun _ => ⟨"notjson", "", 0, none⟩ }

/-- A concrete config with only a detect command. -/
def cfgDetectFix : ExecutableYamlConfig := ⟨false, [], some ["detect"], none, ""⟩

/-- A concrete config with only a transform command. -/
def cfgTransFix : ExecutableYamlConfig := ⟨false, [], none, some ["tr"], ""⟩

/-- A concrete config with no commands at all. -/
def cfgTemplFix : ExecutableYamlConfig := ⟨false, [], none, none, ""⟩

/-- A concrete artifact whose serviceDir path is /src/svc. -/
def aServiceFix : Artifact := ⟨some [(ServiceDirPathType, some ["/src/svc"])], none⟩

/-- A concrete artifact with a nil Paths map. -/
def aNoPathFix : Artifact := ⟨none, none⟩

/-- A concrete environment for Init fixtures. -/
def envPlainFix : EnvModel :=
  { source := "/src", context := "/ctx", relTemplatesDir := "templates",
    exec := fun _ => ⟨"", "", 0, none⟩ }

/-- Concrete Init collaborators: host OS linux, plugin declared for
darwin only, no container image. -/
def dInitBadPlatFix : InitDeps :=
  ⟨"myplug", "linux", Except.ok ⟨false, ["darwin"], none, none, ""⟩,
   Except.error "qa down", fun _ => Except.ok envPlainFix⟩

/-- Concrete Init collaborators: QA enabled but the receiver fails to
start; the platform is supported. -/
def dInitQAFailFix : InitDeps :=
  ⟨"myplug", "linux", Except.ok ⟨true, ["linux"], none, none, ""⟩,
   Except.error "qa down", fun _ => Except.ok envPlainFix⟩

/-- The services returned by the concrete successful detect fixture. -/
def svcsFix : Services :=
  [("", [⟨some [(ServiceDirPathType, some ["dir"])],
          some [(TemplateConfigType, jvO)]⟩])]

/-- A loop iteration over the Option monad that leaves the accumulator
unchanged can be dropped from a foldlM. -/
theorem foldlM_skip_of_step_id {α σ : Type} (f : σ → α → Option σ) (a : α)
    (hskip : ∀ acc, f acc a = some acc) (pre post : List α) :
    ∀ init : σ, (pre ++ a :: post).foldlM f init = (pre ++ post).foldlM f init := by
  induction pre with
  | nil =>
    intro init
    simp only [List.nil_append, List.foldlM_cons, hskip]
    rfl
  | cons p ps ih =>
    intro init
    simp only [List.cons_append, List.foldlM_cons]
    cases hp : f init p with
    | none => rfl
    | some i2 => exact ih i2

/-- Transform's loop always finishes with the hardcoded nil error
(part_000 line 167) whenever it does not panic. -/
theorem transform_error_always_nil (lib : GoLib) (env : EnvModel)
    (cfg : ExecutableYamlConfig) (arts seen : List Artifact)
    (res : List PathMapping × List Artifact × Option ExecErr)
    (h : Transform lib env cfg arts seen = some res) : res.2.2 = none := by
  unfold Transform at h
  cases hf : arts.foldlM (transformStep lib env cfg) ([], []) with
  | none => rw [hf] at h; simp at h
  | some acc =>
    rw [hf] at h
    injection h with h2
    rw [← h2]

/-- A transform command exiting non-zero leaves the accumulators
unchanged (part_000 lines 152-154). -/
theorem transformStep_skips_bad_exit (lib : GoLib) (env : EnvModel)
    (cfg : ExecutableYamlConfig) (cmd : Command) (a : Artifact) (path : String)
    (hcmd : cfg.transformCMD = some cmd)
    (hpath : transformBranchPath a = some path)
    (herr : (env.exec (cmd ++ [path])).err = none)
    (hexit : (env.exec (cmd ++ [path])).exitcode ≠ 0)
    (acc : TransformAcc) :
    transformStep lib env cfg acc a = some acc := by
  rcases hr : env.exec (cmd ++ [path]) with ⟨so, se, ec, er⟩
  rw [hr] at herr hexit
  simp only at herr hexit
  subst herr
  unfold transformStep
  rw [hcmd, hpath]
  dsimp only
  rw [hr]
  dsimp only
  rw [if_pos hexit]

/-- A transform command whose stdout fails to unmarshal leaves the
accumulators unchanged: the zero-value output contributes nothing
(part_000 lines 157-164). -/
theorem transformStep_skips_parse_failure (lib : GoLib) (env : EnvModel)
    (cfg : ExecutableYamlConfig) (cmd : Command) (a : Artifact) (path : String)
    (hcmd : cfg.transformCMD = some cmd)
    (hpath : transformBranchPath a = some path)
    (herr : (env.exec (cmd ++ [path])).err = none)
    (hexit : (env.exec (cmd ++ [path])).exitcode = 0)
    (hparse : (lib.jparse (goTrimSpace (env.exec (cmd ++ [path])).stdout)).bind
        decodeTransformOutput = none)
    (acc : TransformAcc) :
    transformStep lib env cfg acc a = some acc := by
  rcases hr : env.exec (cmd ++ [path]) with ⟨so, se, ec, er⟩
  rw [hr] at herr hexit hparse
  simp only at herr hexit hparse
  subst herr hexit
  unfold transformStep
  rw [hcmd, hpath]
  dsimp only
  rw [hr]
  dsimp only
  rw [if_neg (by simp : ¬ ((0 : Int) ≠ 0)), hparse]
  simp only [Option.getD_none, List.append_nil]

/-- Claim C2: an artifact whose transform command runs and exits
non-zero contributes zero path mappings and zero created artifacts (the
artifact can be dropped from the input without changing the result), and
a run of Transform that returns always returns a nil error. -/
theorem transform_skips_artifact_on_bad_exit (lib : GoLib) (env : EnvModel)
    (cfg : ExecutableYamlConfig) (cmd : Command) (pre post seen : List Artifact)
    (a : Artifact) (path : String)
    (hcmd : cfg.transformCMD = some cmd)
    (hpath : transformBranchPath a = some path)
    (herr : (env.exec (cmd ++ [path])).err = none)
    (hexit : (env.exec (cmd ++ [path])).exitcode ≠ 0) :
    Transform lib env cfg (pre ++ a :: post) seen = Transform lib env cfg (pre ++ post) seen
    ∧ ∀ (arts seen2 : List Artifact) (res : List PathMapping × List Artifact × Option ExecErr),
        Transform lib env cfg arts seen2 = some res → res.2.2 = none := by
  constructor
  · unfold Transform
    rw [foldlM_skip_of_step_id (transformStep lib env cfg) a
      (transformStep_skips_bad_exit lib env cfg cmd a path hcmd hpath herr hexit) pre post]
  · intro arts seen2 res h
    exact transform_error_always_nil lib env cfg arts seen2 res h

/-- Witness for claim C2 at a concrete input. -/
theorem transform_skips_artifact_on_bad_exit_witness :
    Transform libFix envBadExitFix cfgTransFix [aServiceFix] [] =
      Transform libFix envBadExitFix cfgTransFix [] [] :=
  (transform_skips_artifact_on_bad_exit libFix envBadExitFix cfgTransFix ["tr"]
    [] [] [] aServiceFix "/src/svc" rfl rfl rfl (by decide)).1

/-- Claim C5: an artifact whose transform command exits 0 but whose
trimmed stdout fails to unmarshal as a TransformOutput contributes zero
path mappings and zero created artifacts (the artifact can be dropped
from the input without changing the result). -/
theorem transform_skips_artifact_on_parse_failure (lib : GoLib) (env : EnvModel)
    (cfg : ExecutableYamlConfig) (cmd : Command) (pre post seen : List Artifact)
    (a : Artifact) (path : String)
    (hcmd : cfg.transformCMD = some cmd)
    (hpath : transformBranchPath a = some path)
    (herr : (env.exec (cmd ++ [path])).err = none)
    (hexit : (env.exec (cmd ++ [path])).exitcode = 0)
    (hparse : (lib.jparse (goTrimSpace (env.exec (cmd ++ [path])).stdout)).bind
        decodeTransformOutput = none) :
    Transform lib env cfg (pre ++ a :: post) seen = Transform lib env cfg (pre ++ post) seen := by
  unfold Transform
  rw [foldlM_skip_of_step_id (transformStep lib env cfg) a
    (transformStep_skips_parse_failure lib env cfg cmd a path hcmd hpath herr hexit hparse)
    pre post]

/-- Witness for claim C5 at a concrete input. -/
theorem transform_skips_artifact_on_parse_failure_witness :
    Transform libFix envParseFailFix cfgTransFix [aServiceFix] [] =
      Transform libFix envParseFailFix cfgTransFix [] [] :=
  transform_skips_artifact_on_parse_failure libFix envParseFailFix cfgTransFix ["tr"]
    [] [] [] aServiceFix "/src/svc" rfl rfl rfl rfl rfl

/-- With no transform command configured, one artifact in the input
whose serviceDir path access panics makes the whole loop panic. -/
theorem transform_loop_panics_of_missing_path (lib : GoLib) (env : EnvModel)
    (cfg : ExecutableYamlConfig) (hcmd : cfg.transformCMD = none) :
    ∀ (arts : List Artifact) (a : Artifact), a ∈ arts → templateBranchPath a = none →
      ∀ acc : TransformAcc, arts.foldlM (transformStep lib env cfg) acc = none := by
  intro arts
  induction arts with
  | nil => intro a ha; cases ha
  | cons hd tl ih =>
    intro a ha hnp acc
    rcases List.mem_cons.mp ha with h | h
    · subst h
      simp only [List.foldlM_cons]
      have hstep : transformStep lib env cfg acc a = none := by
        unfold transformStep
        rw [hcmd]
        dsimp only
        rw [hnp]
      rw [hstep]
      rfl
    · simp only [List.foldlM_cons]
      cases hstep : transformStep lib env cfg acc hd with
      | none => rfl
      | some acc2 => exact ih a h hnp acc2

/-- Claim C9: with no transform command, Transform indexes the first
serviceDir path of each artifact unguarded, so an input artifact lacking
a non-empty serviceDir path list makes Transform panic; the
transform-command branch instead guards the access, computing an empty
path when the Paths map or the serviceDir slice is nil. -/
theorem transform_template_branch_unguarded_index (lib : GoLib) (env : EnvModel)
    (cfg : ExecutableYamlConfig) (arts seen : List Artifact) (a : Artifact)
    (hcmd : cfg.transformCMD = none) (hmem : a ∈ arts)
    (hnopath : templateBranchPath a = none) :
    Transform lib env cfg arts seen = none
    ∧ (∀ b : Artifact, b.paths = none ∨ pathsLookup b.paths ServiceDirPathType = none →
        transformBranchPath b = some "")
    ∧ (∀ b : Artifact, templateBranchPath b = none ↔
        (pathsLookup b.paths ServiceDirPathType).getD [] = []) := by
  refine ⟨?_, ?_, ?_⟩
  · unfold Transform
    rw [transform_loop_panics_of_missing_path lib env cfg hcmd arts a hmem hnopath ([], [])]
    rfl
  · intro b hb
    rcases hb with hb | hb
    · unfold transformBranchPath
      rw [hb]
    · cases hp : b.paths with
      | none => unfold transformBranchPath; rw [hp]
      | some m =>
        rw [hp] at hb
        unfold transformBranchPath
        rw [hp]
        dsimp only
        rw [hb]
  · intro b
    unfold templateBranchPath sliceHead
    generalize (pathsLookup b.paths ServiceDirPathType).getD [] = l
    cases l <;> simp

/-- Witness for claim C9 at a concrete input. -/
theorem transform_template_branch_unguarded_index_witness :
    Transform libFix envDetectFix cfgTemplFix [aNoPathFix] [] = none
    ∧ transformBranchPath aNoPathFix = some "" := by
  have h := transform_template_branch_unguarded_index libFix envDetectFix cfgTemplFix
    [aNoPathFix] [] aNoPathFix rfl (List.mem_singleton.mpr rfl) rfl
  exact ⟨h.1, h.2.1 aNoPathFix (Or.inl rfl)⟩

/-- With no transform command the loop appends, per artifact, the
template fallback pair (or nothing when filepath.Rel fails), provided
every artifact has a non-empty serviceDir path list. -/
theorem transform_loop_template_fallback (lib : GoLib) (env : EnvModel)
    (cfg : ExecutableYamlConfig) (hcmd : cfg.transformCMD = none) :
    ∀ (arts : List Artifact) (p : List PathMapping) (c : List Artifact),
      (∀ a ∈ arts, (templateBranchPath a).isSome = true) →
      arts.foldlM (transformStep lib env cfg) (p, c) =
        some (p ++ arts.flatMap (templateFallbackMappings lib env), c) := by
  intro arts
  induction arts with
  | nil => intro p c _; simp
  | cons a as ih =>
    intro p c hall
    obtain ⟨p0, hp0⟩ := Option.isSome_iff_exists.mp (hall a (List.mem_cons_self a as))
    have hstep : ∀ acc : TransformAcc, transformStep lib env cfg acc a =
        some (acc.1 ++ templateFallbackMappings lib env a, acc.2) := by
      intro acc
      unfold transformStep templateFallbackMappings
      rw [hcmd]
      dsimp only
      rw [hp0]
      dsimp only
      cases hrel : lib.rel env.source p0 with
      | none => simp
      | some r => rfl
    rw [List.foldlM_cons, hstep (p, c)]
    show as.foldlM (transformStep lib env cfg)
        (p ++ templateFallbackMappings lib env a, c) =
      some (p ++ (a :: as).flatMap (templateFallbackMappings lib env), c)
    rw [ih (p ++ templateFallbackMappings lib env a) c
      (fun b hb => hall b (List.mem_cons_of_mem a hb))]
    rw [List.flatMap_cons, List.append_assoc]

/-- Claim C3: with no transform command configured, Transform on
artifacts that all carry a serviceDir path appends per artifact exactly
the template mapping followed by the source mapping (or nothing for an
artifact whose path cannot be made relative, without aborting the
rest), creates no artifacts, and returns a nil error; when every
artifact's path can be made relative this is exactly 2n path
mappings. -/
theorem transform_template_fallback_pair_count (lib : GoLib) (env : EnvModel)
    (cfg : ExecutableYamlConfig) (arts seen : List Artifact)
    (hcmd : cfg.transformCMD = none)
    (hpaths : ∀ a ∈ arts, (templateBranchPath a).isSome = true) :
    Transform lib env cfg arts seen =
      some (arts.flatMap (templateFallbackMappings lib env), [], none)
    ∧ ((∀ a ∈ arts, ∃ p0, templateBranchPath a = some p0 ∧
          (lib.rel env.source p0).isSome = true) →
        (arts.flatMap (templateFallbackMappings lib env)).length = 2 * arts.length) := by
  constructor
  · unfold Transform
    rw [transform_loop_template_fallback lib env cfg hcmd arts [] [] hpaths]
    rfl
  · clear hpaths
    induction arts with
    | nil => intro _; simp
    | cons a as ih =>
      intro hrel
      obtain ⟨p0, hp0, hr⟩ := hrel a (List.mem_cons_self a as)
      obtain ⟨r, hr2⟩ := Option.isSome_iff_exists.mp hr
      have hlen : (templateFallbackMappings lib env a).length = 2 := by
        unfold templateFallbackMappings
        rw [hp0]
        dsimp only
        rw [hr2]
        rfl
      rw [List.flatMap_cons, List.length_append, hlen,
        ih (fun b hb => hrel b (List.mem_cons_of_mem a hb)), List.length_cons]
      ring

/-- Witness for claim C3 at a concrete input. -/
theorem transform_template_fallback_pair_count_witness :
    Transform libFix envDetectFix cfgTemplFix [aServiceFix] [] =
      some ([aServiceFix].flatMap (templateFallbackMappings libFix envDetectFix), [], none)
    ∧ ([aServiceFix].flatMap (templateFallbackMappings libFix envDetectFix)).length =
        2 * [aServiceFix].length := by
  have h := transform_template_fallback_pair_count libFix envDetectFix cfgTemplFix
    [aServiceFix] [] rfl (by decide)
  refine ⟨h.1, h.2 ?_⟩
  intro a ha
  rw [List.mem_singleton] at ha
  subst ha
  exact ⟨"/src/svc", rfl, rfl⟩

/-- Claim C1: a successful detect execution whose stdout is a JSON
object that does not decode as the full services shape yields the
single-entry map keyed by the empty string holding one artifact whose
serviceDir path is the one-element list dir and whose TemplateConfig is
that object.  The parser hypothesis on the empty string states that a
JSON parser rejects empty input. -/
theorem detect_fallback_wraps_loose_object (lib : GoLib) (env : EnvModel)
    (cfg : ExecutableYamlConfig) (cmd : Command) (dir : String)
    (fields : List (String × JValue))
    (hcmd : cfg.directoryDetectCMD = some cmd)
    (hempty : lib.jparse "" = none)
    (herr : (env.exec (cmd ++ [dir])).err = none)
    (hexit : (env.exec (cmd ++ [dir])).exitcode = 0)
    (hparse : lib.jparse (goTrimSpace (env.exec (cmd ++ [dir])).stdout) =
      some (JValue.obj fields))
    (hnotfull : decodeServices (JValue.obj fields) = none) :
    executeDetect lib env cmd dir =
      (some [("", [⟨some [(ServiceDirPathType, some [dir])],
                    some [(TemplateConfigType, JValue.obj fields)]⟩])], none)
    ∧ DirectoryDetect lib env cfg dir =
      (some [("", [⟨some [(ServiceDirPathType, some [dir])],
                    some [(TemplateConfigType, JValue.obj fields)]⟩])], none) := by
  have h1 : executeDetect lib env cmd dir =
      (some [("", [⟨some [(ServiceDirPathType, some [dir])],
                    some [(TemplateConfigType, JValue.obj fields)]⟩])], none) := by
    rcases hr : env.exec (cmd ++ [dir]) with ⟨so, se, ec, er⟩
    rw [hr] at herr hexit hparse
    simp only at herr hexit hparse
    subst herr hexit
    have hso : goTrimSpace so ≠ "" := by
      intro h
      rw [h, hempty] at hparse
      exact Option.noConfusion hparse
    unfold executeDetect
    rw [hr]
    dsimp only
    rw [if_neg (by simp : ¬ ((0 : Int) ≠ 0)), hparse]
    simp only [Option.some_bind]
    rw [hnotfull]
    dsimp only
    rw [if_neg hso]
    rfl
  refine ⟨h1, ?_⟩
  unfold DirectoryDetect
  rw [hcmd]
  dsimp only
  rw [h1]
  rfl

/-- Witness for claim C1 at a concrete input. -/
theorem detect_fallback_wraps_loose_object_witness :
    executeDetect libFix envDetectFix ["detect"] "dir" =
      (some [("", [⟨some [(ServiceDirPathType, some ["dir"])],
                    some [(TemplateConfigType, JValue.obj [("k", JValue.num 7)])]⟩])],
       none)
    ∧ DirectoryDetect libFix envDetectFix cfgDetectFix "dir" =
      (some [("", [⟨some [(ServiceDirPathType, some ["dir"])],
                    some [(TemplateConfigType, JValue.obj [("k", JValue.num 7)])]⟩])],
       none) :=
  detect_fallback_wraps_loose_object libFix envDetectFix cfgDetectFix ["detect"] "dir"
    [("k", JValue.num 7)] rfl rfl rfl rfl rfl rfl

/-- Claim C4 counterexample: a detect command whose execution fails with
an exec error other than environment-not-active makes DirectoryDetect
return that error instead of the claimed empty result with no error. -/
theorem detect_exec_error_escapes :
    (DirectoryDetect libFix envExecErrFix cfgDetectFix "d").2 =
      some (ExecErr.other "boom")
    ∧ (DirectoryDetect libFix envExecErrFix cfgDetectFix "d").2 ≠ none := by
  constructor
  · rfl
  · decide

/-- Claim C4 amended: a detect command returning a non-zero exit code
makes DirectoryDetect return an empty result with no error, while an
exec error (environment-not-active or any other) is returned to the
caller together with an empty result. -/
theorem detect_error_propagation (lib : GoLib) (env : EnvModel)
    (cfg : ExecutableYamlConfig) (cmd : Command) (dir : String)
    (hcmd : cfg.directoryDetectCMD = some cmd) :
    ((env.exec (cmd ++ [dir])).err = none → (env.exec (cmd ++ [dir])).exitcode ≠ 0 →
      DirectoryDetect lib env cfg dir = (none, none))
    ∧ (∀ e : ExecErr, (env.exec (cmd ++ [dir])).err = some e →
      DirectoryDetect lib env cfg dir = (none, some e)) := by
  constructor
  · intro herr hexit
    rcases hr : env.exec (cmd ++ [dir]) with ⟨so, se, ec, er⟩
    rw [hr] at herr hexit
    simp only at herr hexit
    subst herr
    have hdet : executeDetect lib env cmd dir = (none, none) := by
      unfold executeDetect
      rw [hr]
      dsimp only
      rw [if_pos hexit]
    unfold DirectoryDetect
    rw [hcmd]
    dsimp only
    rw [hdet]
    rfl
  · intro e herr
    rcases hr : env.exec (cmd ++ [dir]) with ⟨so, se, ec, er⟩
    rw [hr] at herr
    simp only at herr
    subst herr
    have hdet : executeDetect lib env cmd dir = (none, some e) := by
      unfold executeDetect
      rw [hr]
    unfold DirectoryDetect
    rw [hcmd]
    dsimp only
    rw [hdet]

/-- Witness for the amended claim C4 at a concrete input. -/
theorem detect_error_propagation_witness :
    DirectoryDetect libFix envExecErrFix cfgDetectFix "d" =
      (none, some (ExecErr.other "boom")) :=
  (detect_error_propagation libFix envExecErrFix cfgDetectFix ["detect"] "d" rfl).2
    (ExecErr.other "boom") rfl

/-- Claim C6: after a successful detect execution, DirectoryDetect maps
every artifact of every service through the defaulting step, which
rewrites an artifact with an empty path mapping so that its serviceDir
path list is exactly the one-element list dir, and leaves an artifact
with a non-empty path mapping unchanged. -/
theorem detect_default_path_injection (lib : GoLib) (env : EnvModel)
    (cfg : ExecutableYamlConfig) (cmd : Command) (dir : String) (svcs : Services)
    (hcmd : cfg.directoryDetectCMD = some cmd)
    (hdet : executeDetect lib env cmd dir = (some svcs, none)) :
    DirectoryDetect lib env cfg dir =
      (some (svcs.map (fun p => (p.1, p.2.map (defaultPathsArtifact dir)))), none)
    ∧ (∀ a : Artifact, pathsLen a.paths = 0 →
        defaultPathsArtifact dir a =
          { a with paths := some [(ServiceDirPathType, some [dir])] })
    ∧ (∀ a : Artifact, pathsLen a.paths ≠ 0 → defaultPathsArtifact dir a = a) := by
  refine ⟨?_, ?_, ?_⟩
  · unfold DirectoryDetect
    rw [hcmd]
    dsimp only
    rw [hdet]
    rfl
  · intro a h
    unfold defaultPathsArtifact
    rw [if_pos h]
  · intro a h
    unfold defaultPathsArtifact
    rw [if_neg h]

/-- Witness for claim C6 at a concrete input. -/
theorem detect_default_path_injection_witness :
    DirectoryDetect libFix envDetectFix cfgDetectFix "dir" =
      (some (svcsFix.map (fun p => (p.1, p.2.map (defaultPathsArtifact "dir")))), none)
    ∧ defaultPathsArtifact "dir" aNoPathFix =
        { aNoPathFix with paths := some [(ServiceDirPathType, some ["dir"])] } := by
  have h := detect_default_path_injection libFix envDetectFix cfgDetectFix
    ["detect"] "dir" svcsFix rfl rfl
  exact ⟨h.1, h.2.1 aNoPathFix rfl⟩

/-- Claim C7: when the host OS is not contained in the configured
platforms list and the configured container image is empty, Init
returns a non-nil error naming the unsupported platform. -/
theorem init_fails_unsupported_platform_without_container (d : InitDeps)
    (cfg : ExecutableYamlConfig)
    (hparse : d.parseConfig = Except.ok cfg)
    (hplat : cfg.platforms.contains d.goos = false)
    (himg : cfg.containerImage = "") :
    Init d = Except.error
      ("platform " ++ d.goos ++ " not supported by transformer " ++ d.tcName) := by
  unfold Init
  rw [hparse]
  dsimp only
  have hcond : (!(cfg.platforms.contains d.goos) && (cfg.containerImage == "")) = true := by
    rw [hplat, himg]
    rfl
  rw [if_pos hcond]

/-- Witness for claim C7 at a concrete input. -/
theorem init_fails_unsupported_platform_without_container_witness :
    Init dInitBadPlatFix = Except.error
      ("platform " ++ "linux" ++ " not supported by transformer " ++ "myplug") :=
  init_fails_unsupported_platform_without_container dInitBadPlatFix
    ⟨false, ["darwin"], none, none, ""⟩ rfl rfl rfl

/-- Claim C10: with QA enabled and the QA RPC receiver failing to start,
Init does not return an error; it proceeds and creates the environment
with a nil QA receiver address. -/
theorem init_qa_receiver_failure_nonfatal (d : InitDeps)
    (cfg : ExecutableYamlConfig) (qe : String) (env : EnvModel)
    (hparse : d.parseConfig = Except.ok cfg)
    (hqa : cfg.enableQA = true)
    (hqafail : d.qaStart = Except.error qe)
    (hplat : cfg.platforms.contains d.goos = true ∨ cfg.containerImage ≠ "")
    (henv : d.newEnvironment none = Except.ok env) :
    Init d = Except.ok ⟨cfg, none, env⟩ := by
  unfold Init
  rw [hparse]
  dsimp only
  rw [if_pos hqa]
  rw [hqafail]
  dsimp only
  have hcond : (!(cfg.platforms.contains d.goos) && (cfg.containerImage == "")) = false := by
    rcases hplat with h | h
    · rw [h]
      rfl
    · rw [show (cfg.containerImage == "") = false from beq_eq_false_iff_ne.mpr h]
      rw [Bool.and_false]
  rw [if_neg (by rw [hcond]; exact Bool.false_ne_true)]
  rw [henv]

/-- Witness for claim C10 at a concrete input. -/
theorem init_qa_receiver_failure_nonfatal_witness :
    Init dInitQAFailFix =
      Except.ok ⟨⟨true, ["linux"], none, none, ""⟩, none, envPlainFix⟩ :=
  init_qa_receiver_failure_nonfatal dInitQAFailFix
    ⟨true, ["linux"], none, none, ""⟩ "qa down" envPlainFix
    rfl rfl rfl (Or.inl rfl) rfl

/-- Claim C8: engine discovery happens at most once per process.  From
the initial state, a declined consent leaves a nil engine and a
disabled, inited state; a granted consent with no initializable backend
halts the process; and once inited, every later call returns the cached
engine and leaves the state unchanged regardless of the consent or
backend arguments, so the cached result never changes. -/
theorem container_engine_discovery_once
    (nd nd2 : Except String (Option Engine)) (c2 : Bool) :
    (GetContainerEngine false nd initialContainerState =
        some (none, ⟨true, true, none⟩)
      ∧ IsDisabled ⟨true, true, none⟩ = true)
    ∧ ((initContainerEngine nd).2 ≠ none →
        GetContainerEngine true nd initialContainerState = none)
    ∧ (∀ s : ContainerState, s.inited = true →
        GetContainerEngine c2 nd2 s = some (s.workingEngine, s)) := by
  refine ⟨⟨rfl, rfl⟩, ?_, ?_⟩
  · intro h
    rcases hi : initContainerEngine nd with ⟨we, err⟩
    rw [hi] at h
    cases err with
    | none => exact absurd rfl h
    | some e =>
      unfold GetContainerEngine
      dsimp only [initialContainerState]
      rw [hi]
      rw [if_neg (by decide : ¬ (false = true)), if_pos (by decide : (!!true) = true)]
  · intro s hs
    unfold GetContainerEngine
    rw [if_pos hs]

/-- Witness for claim C8 at a concrete input. -/
theorem container_engine_discovery_once_witness :
    GetContainerEngine true (Except.error "no docker") initialContainerState = none
    ∧ GetContainerEngine true (Except.ok none)
        ⟨true, false, some ⟨"docker"⟩⟩ = some (some ⟨"docker"⟩, ⟨true, false, some ⟨"docker"⟩⟩) := by
  have h1 := container_engine_discovery_once (Except.error "no docker") (Except.ok none) true
  exact ⟨h1.2.1 (by decide), h1.2.2 ⟨true, false, some ⟨"docker"⟩⟩ rfl⟩

end Move2Kube
